import Mathlib

/-
Verification of the retirement projection calculator (src/scripts/app.js).

The computational core of the program is embedded shallowly:
real-number arithmetic of the calculator is modelled with exact
rationals (`Rat`), calendar years and ages with `Int`, and the
fallible validation step with `Except`.  The implicit
`new Date().getFullYear()` read is made an explicit `currentYear`
parameter, as the specification demands for the engine boundary.
-/

/-- CONFIG.WITHDRAWAL_RATE from the source: the 4% rule constant. -/
def WITHDRAWAL_RATE : Rat := 0.04

/-- The FinancialProfile record (class FinancialProfile in the source).
Ages and calendar years are integers per the data model; monetary and
percentage fields are rationals. -/
structure FinancialProfile where
  currentAge : Int
  retirementAge : Int
  currentSavings : Rat
  monthlyInvestment : Rat
  investmentReturn : Rat
  windfallAmount : Rat
  windfallEndYear : Int
  rent : Rat
  otherExpenses : Rat
  expenseInflation : Rat

/-- The three validation failure kinds of the error taxonomy. -/
inductive ValidationError where
  | InvalidTimeline
  | InvalidReturnRate
  | InvalidWindfall
deriving DecidableEq

/-- The human-readable message thrown by the source for each rule. -/
def ValidationError.message : ValidationError → String
  | .InvalidTimeline => "Retirement age must be greater than current age"
  | .InvalidReturnRate => "Investment return must be between 0% and 50%"
  | .InvalidWindfall => "Windfall amount cannot be negative"

/-- FinancialProfile.validate: the three checks in source order, first
failure winning; a throw becomes an `Except.error`. -/
def FinancialProfile.validate (p : FinancialProfile) : Except ValidationError Unit :=
  if p.currentAge ≥ p.retirementAge then
    Except.error ValidationError.InvalidTimeline
  else if p.investmentReturn < 0 ∨ p.investmentReturn > 50 then
    Except.error ValidationError.InvalidReturnRate
  else if p.windfallAmount < 0 then
    Except.error ValidationError.InvalidWindfall
  else
    Except.ok ()

/-- FinancialProfile.hasWindfallInYear, with the source's implicit
`new Date().getFullYear()` passed explicitly as `currentYear`. -/
def FinancialProfile.hasWindfallInYear (p : FinancialProfile)
    (currentYear targetYear : Int) : Bool :=
  let yearsFromNow := targetYear - currentYear
  let ageAtYear := p.currentAge + yearsFromNow
  decide (ageAtYear < p.retirementAge) &&
    decide (targetYear ≤ p.windfallEndYear) &&
    decide (p.windfallAmount > 0)

/-- One record pushed onto `results` per loop iteration in
CalculationEngine.project. -/
structure YearlyResult where
  year : Int
  age : Int
  portfolio : Rat
  futureRent : Rat
  futureOther : Rat
  totalMonthlyExpenses : Rat
  receivedWindfall : Bool

namespace CalculationEngine

/-- The three portfolio updates of one loop body of
CalculationEngine.project, in source order: growth is applied to the
prior balance, then the year's contributions are added, then the
windfall when eligible. -/
def stepPortfolio (p : FinancialProfile) (currentYear : Int)
    (yearOffset : Nat) (pv : Rat) : Rat :=
  let grown := pv * (1 + p.investmentReturn / 100)
  let contributed := grown + p.monthlyInvestment * 12
  if p.hasWindfallInYear currentYear (currentYear + (yearOffset : Int)) then
    contributed + p.windfallAmount
  else
    contributed

/-- The YearlyResult pushed at a given year offset, given the
post-update portfolio value for that offset. -/
def mkYearlyResult (p : FinancialProfile) (currentYear : Int)
    (yearOffset : Nat) (pv : Rat) : YearlyResult :=
  let currentSimulationYear := currentYear + (yearOffset : Int)
  let inflationFactor := (1 + p.expenseInflation / 100) ^ yearOffset
  let futureMonthlyRent := p.rent * inflationFactor
  let futureOtherMonthly := p.otherExpenses * inflationFactor
  ⟨currentSimulationYear, p.currentAge + (yearOffset : Int), pv,
    futureMonthlyRent, futureOtherMonthly,
    futureMonthlyRent + futureOtherMonthly,
    p.hasWindfallInYear currentYear currentSimulationYear⟩

/-- The projection loop: `fuel` remaining iterations starting at
`yearOffset`, threading the running portfolio scalar forward. -/
def projectAux (p : FinancialProfile) (currentYear : Int) :
    Nat → Rat → Nat → List YearlyResult
  | _, _, 0 => []
  | yearOffset, pv, fuel + 1 =>
    let pv2 := stepPortfolio p currentYear yearOffset pv
    mkYearlyResult p currentYear yearOffset pv2 ::
      projectAux p currentYear (yearOffset + 1) pv2 fuel

/-- CalculationEngine.project: validate, then run the loop for
yearOffset = 0 .. (retirementAge - currentAge) inclusive. -/
def project (p : FinancialProfile) (currentYear : Int) :
    Except ValidationError (List YearlyResult) :=
  match p.validate with
  | Except.error e => Except.error e
  | Except.ok _ =>
    Except.ok (projectAux p currentYear 0 p.currentSavings
      ((p.retirementAge - p.currentAge).toNat + 1))

/-- CalculationEngine.calculateSafeWithdrawal; `Math.round` is
round-half-toward-positive-infinity, which is Mathlib's `round`. -/
def calculateSafeWithdrawal (finalPortfolioValue : Rat) : Int :=
  let annualWithdrawal := finalPortfolioValue * WITHDRAWAL_RATE
  let monthlyWithdrawal := annualWithdrawal / 12
  round monthlyWithdrawal

/-- Insert a comma after every third character of a reversed digit
list: the grouping performed by `toLocaleString` (en-US). -/
def commifyRev : List Char → List Char
  | [] => []
  | [a] => [a]
  | [a, b] => [a, b]
  | [a, b, c] => [a, b, c]
  | a :: b :: c :: rest => a :: b :: c :: ',' :: commifyRev rest

/-- Decimal rendering of a natural number with thousands separators. -/
def natCommaString (n : Nat) : String :=
  String.mk (commifyRev (Nat.toDigits 10 n).reverse).reverse

/-- `Int.toLocaleString` as used by the source on `Math.round(value)`. -/
def intLocaleString (i : Int) : String :=
  if i < 0 then "-" ++ natCommaString i.natAbs else natCommaString i.natAbs

/-- Left-pad a digit list with zeros to a given width. -/
def padLeftZeros (width : Nat) (s : List Char) : List Char :=
  List.replicate (width - s.length) '0' ++ s

/-- `Number.prototype.toFixed(f)`: fixed-point rendering with `f`
fractional digits, ties rounded toward the larger value. -/
def ratToFixed (f : Nat) (q : Rat) : String :=
  let scaled := round (q * (10 : Rat) ^ f)
  let m := scaled.natAbs
  let intPart := m / 10 ^ f
  let fracPart := m % 10 ^ f
  let sign := if scaled < 0 then "-" else ""
  sign ++ Nat.repr intPart ++ "." ++ String.mk (padLeftZeros f (Nat.toDigits 10 fracPart))

/-- CalculationEngine.formatCurrency with its threshold cascade. -/
def formatCurrency (value : Rat) : String :=
  if value ≥ 1000000000 then "$" ++ ratToFixed 2 (value / 1000000000) ++ "B"
  else if value ≥ 1000000 then "$" ++ ratToFixed 2 (value / 1000000) ++ "M"
  else if value ≥ 10000 then "$" ++ ratToFixed 1 (value / 1000) ++ "k"
  else "$" ++ intLocaleString (round value)

end CalculationEngine

/-- CONFIG.DEFAULT_PROFILE from the source. -/
def DEFAULT_PROFILE : FinancialProfile :=
  ⟨47, 67, 0, 250, 7, 10000, 2030, 1200, 800, 3⟩

/-- The worked example of the specification: one extra year, no
savings, 250/month at 7%, no windfall, no expenses. -/
def exampleC1 : FinancialProfile :=
  ⟨47, 48, 0, 250, 7, 0, 2030, 0, 0, 3⟩

/-- A profile violating the timeline rule, for exercising validation. -/
def badTimeline : FinancialProfile :=
  ⟨50, 48, 0, 250, 7, 10000, 2030, 1200, 800, 3⟩

/-- A profile with zero return, zero contributions and zero windfall. -/
def flatProfile : FinancialProfile :=
  ⟨47, 49, 500, 0, 0, 0, 2030, 0, 0, 0⟩

namespace CalculationEngine

/-- The mutable state visible to one iteration of the source loop: the
profile it reads, the running portfolio scalar, and the results array. -/
structure LoopState where
  profile : FinancialProfile
  portfolio : Rat
  results : List YearlyResult

/-- One iteration of the source loop as a state transformer: it reads
profile fields, overwrites the running portfolio and appends one
result; no profile field is assigned anywhere in the body. -/
def loopStep (currentYear : Int) (yearOffset : Nat) (s : LoopState) : LoopState :=
  let pv2 := stepPortfolio s.profile currentYear yearOffset s.portfolio
  ⟨s.profile, pv2, s.results ++ [mkYearlyResult s.profile currentYear yearOffset pv2]⟩

/-- Run `fuel` iterations of the loop from a given offset. -/
def runLoop (currentYear : Int) : Nat → Nat → LoopState → LoopState
  | _, 0, s => s
  | yearOffset, fuel + 1, s =>
    runLoop currentYear (yearOffset + 1) fuel (loopStep currentYear yearOffset s)

/-- Concrete projection of the worked example, reference year 2025. -/
def exampleC1Results : List YearlyResult :=
  projectAux exampleC1 2025 0 exampleC1.currentSavings 2

/-- Concrete projection of the flat profile, reference year 2025. -/
def flatResults : List YearlyResult :=
  projectAux flatProfile 2025 0 flatProfile.currentSavings 3

/-- The portfolio value emitted at relative index `k` by a loop run
beginning at `yearOffset` with prior balance `pv`. -/
def portfolioSeq (p : FinancialProfile) (currentYear : Int) :
    Nat → Rat → Nat → Rat
  | yearOffset, pv, 0 => stepPortfolio p currentYear yearOffset pv
  | yearOffset, pv, k + 1 =>
    portfolioSeq p currentYear (yearOffset + 1)
      (stepPortfolio p currentYear yearOffset pv) k

/-- The portfolio value emitted at offset `k` of a full projection run. -/
def portfolioAt (p : FinancialProfile) (currentYear : Int) (k : Nat) : Rat :=
  portfolioSeq p currentYear 0 p.currentSavings k

/-- The offset-0 entry of the worked example projection. -/
def exampleC1Entry0 : YearlyResult :=
  mkYearlyResult exampleC1 2025 0 (portfolioAt exampleC1 2025 0)

/-- The offset-1 entry of the flat projection. -/
def flatEntry1 : YearlyResult :=
  mkYearlyResult flatProfile 2025 1 (portfolioAt flatProfile 2025 1)

theorem projectAux_length (p : FinancialProfile) (cy : Int) :
    ∀ (fuel yearOffset : Nat) (pv : Rat),
      (projectAux p cy yearOffset pv fuel).length = fuel := by
  intro fuel
  induction fuel with
  | zero => intro yearOffset pv; rfl
  | succ n ih => intro yearOffset pv; simp [projectAux, ih]

theorem projectAux_get? (p : FinancialProfile) (cy : Int) :
    ∀ (fuel yearOffset : Nat) (pv : Rat) (k : Nat), k < fuel →
      (projectAux p cy yearOffset pv fuel).get? k =
        some (mkYearlyResult p cy (yearOffset + k)
          (portfolioSeq p cy yearOffset pv k)) := by
  intro fuel
  induction fuel with
  | zero => intro yearOffset pv k hk; omega
  | succ n ih =>
    intro yearOffset pv k hk
    match k with
    | 0 => simp [projectAux, portfolioSeq]
    | k + 1 =>
      have hrec := ih (yearOffset + 1) (stepPortfolio p cy yearOffset pv) k (by omega)
      simp only [projectAux, List.get?_cons_succ, hrec, portfolioSeq]
      congr 2
      omega

theorem portfolioSeq_succ (p : FinancialProfile) (cy : Int) :
    ∀ (k yearOffset : Nat) (pv : Rat),
      portfolioSeq p cy yearOffset pv (k + 1) =
        stepPortfolio p cy (yearOffset + k + 1)
          (portfolioSeq p cy yearOffset pv k) := by
  intro k
  induction k with
  | zero => intro yearOffset pv; simp [portfolioSeq]
  | succ k ih =>
    intro yearOffset pv
    have := ih (yearOffset + 1) (stepPortfolio p cy yearOffset pv)
    simp only [portfolioSeq] at this ⊢
    rw [this]
    congr 2
    omega

theorem portfolioAt_zero (p : FinancialProfile) (cy : Int) :
    portfolioAt p cy 0 = stepPortfolio p cy 0 p.currentSavings := rfl

theorem portfolioAt_succ (p : FinancialProfile) (cy : Int) (k : Nat) :
    portfolioAt p cy (k + 1) = stepPortfolio p cy (k + 1) (portfolioAt p cy k) := by
  have := portfolioSeq_succ p cy k 0 p.currentSavings
  simpa [portfolioAt] using this

/-- Unfolding of one loop body update. -/
theorem stepPortfolio_eq (p : FinancialProfile) (cy : Int) (yearOffset : Nat) (pv : Rat) :
    stepPortfolio p cy yearOffset pv =
      if p.hasWindfallInYear cy (cy + (yearOffset : Int)) then
        pv * (1 + p.investmentReturn / 100) + p.monthlyInvestment * 12 + p.windfallAmount
      else
        pv * (1 + p.investmentReturn / 100) + p.monthlyInvestment * 12 := rfl

theorem mkYearlyResult_portfolio (p : FinancialProfile) (cy : Int) (k : Nat) (pv : Rat) :
    (mkYearlyResult p cy k pv).portfolio = pv := rfl

end CalculationEngine

theorem validate_ok_iff (p : FinancialProfile) :
    p.validate = Except.ok () ↔
      (p.currentAge < p.retirementAge ∧ 0 ≤ p.investmentReturn ∧
        p.investmentReturn ≤ 50 ∧ 0 ≤ p.windfallAmount) := by
  unfold FinancialProfile.validate
  split_ifs with h1 h2 h3
  · simp only [reduceCtorEq, false_iff]
    intro hc
    exact absurd hc.1 (not_lt.mpr h1)
  · simp only [reduceCtorEq, false_iff]
    intro hc
    rcases h2 with h2 | h2
    · exact absurd h2 (not_lt.mpr hc.2.1)
    · exact absurd h2 (not_lt.mpr hc.2.2.1)
  · simp only [reduceCtorEq, false_iff]
    intro hc
    exact absurd h3 (not_lt.mpr hc.2.2.2)
  · simp only [true_iff]
    push_neg at h1 h2
    exact ⟨h1, h2.1, h2.2, not_lt.mp h3⟩

theorem project_eq_ok (p : FinancialProfile) (cy : Int) (rs : List YearlyResult) :
    CalculationEngine.project p cy = Except.ok rs ↔
      (p.validate = Except.ok () ∧
        rs = CalculationEngine.projectAux p cy 0 p.currentSavings
          ((p.retirementAge - p.currentAge).toNat + 1)) := by
  unfold CalculationEngine.project
  cases hv : p.validate with
  | error e => simp [hv]
  | ok u => cases u; simp [hv, eq_comm]

theorem project_length (p : FinancialProfile) (cy : Int) (rs : List YearlyResult)
    (h : CalculationEngine.project p cy = Except.ok rs) :
    rs.length = (p.retirementAge - p.currentAge).toNat + 1 := by
  obtain ⟨-, hrs⟩ := (project_eq_ok p cy rs).mp h
  rw [hrs, CalculationEngine.projectAux_length]

theorem project_valid (p : FinancialProfile) (cy : Int) (rs : List YearlyResult)
    (h : CalculationEngine.project p cy = Except.ok rs) :
    p.currentAge < p.retirementAge ∧ 0 ≤ p.investmentReturn ∧
      p.investmentReturn ≤ 50 ∧ 0 ≤ p.windfallAmount := by
  obtain ⟨hv, -⟩ := (project_eq_ok p cy rs).mp h
  exact (validate_ok_iff p).mp hv

theorem project_get? (p : FinancialProfile) (cy : Int) (rs : List YearlyResult)
    (h : CalculationEngine.project p cy = Except.ok rs) (k : Nat) (hk : k < rs.length) :
    rs.get? k = some (CalculationEngine.mkYearlyResult p cy k
      (CalculationEngine.portfolioAt p cy k)) := by
  obtain ⟨-, hrs⟩ := (project_eq_ok p cy rs).mp h
  subst hrs
  rw [CalculationEngine.projectAux_length] at hk
  have := CalculationEngine.projectAux_get? p cy _ 0 p.currentSavings k hk
  simpa [CalculationEngine.portfolioAt] using this

theorem project_entry (p : FinancialProfile) (cy : Int) (rs : List YearlyResult)
    (h : CalculationEngine.project p cy = Except.ok rs) (k : Nat) (r : YearlyResult)
    (hr : rs.get? k = some r) :
    r = CalculationEngine.mkYearlyResult p cy k (CalculationEngine.portfolioAt p cy k) := by
  have hk : k < rs.length := (List.get?_eq_some.mp hr).1
  have := project_get? p cy rs h k hk
  rw [this] at hr
  exact (Option.some.inj hr).symm

open CalculationEngine

theorem project_exampleC1 :
    CalculationEngine.project exampleC1 2025 = Except.ok exampleC1Results := rfl

theorem project_flatProfile :
    CalculationEngine.project flatProfile 2025 = Except.ok flatResults := rfl

/-- C1: each year's portfolio is obtained from the previous one (from
`currentSavings` at offset 0) by applying growth, then adding the
annual contribution, then adding the windfall exactly when eligible;
and on the spec's worked example the emitted portfolios are 3000 and
6210. -/
theorem project_growth_order (p : FinancialProfile) (cy : Int) (rs : List YearlyResult)
    (h : CalculationEngine.project p cy = Except.ok rs) :
    (∀ r0, rs.get? 0 = some r0 →
      r0.portfolio =
        (if p.hasWindfallInYear cy cy then
          p.currentSavings * (1 + p.investmentReturn / 100) + p.monthlyInvestment * 12 +
            p.windfallAmount
        else
          p.currentSavings * (1 + p.investmentReturn / 100) + p.monthlyInvestment * 12)) ∧
    (∀ (k : Nat) (rk rk1 : YearlyResult), rs.get? k = some rk → rs.get? (k + 1) = some rk1 →
      rk1.portfolio =
        (if p.hasWindfallInYear cy (cy + (k : Int) + 1) then
          rk.portfolio * (1 + p.investmentReturn / 100) + p.monthlyInvestment * 12 +
            p.windfallAmount
        else
          rk.portfolio * (1 + p.investmentReturn / 100) + p.monthlyInvestment * 12)) ∧
    (CalculationEngine.project exampleC1 2025).toOption.map
        (fun l => l.map fun r => r.portfolio) = some [3000, 6210] := by
  refine ⟨?_, ?_, ?_⟩
  · intro r0 hr0
    have he := project_entry p cy rs h 0 r0 hr0
    rw [he, mkYearlyResult_portfolio, portfolioAt_zero, stepPortfolio_eq]
    norm_num
  · intro k rk rk1 hrk hrk1
    have hek := project_entry p cy rs h k rk hrk
    have hek1 := project_entry p cy rs h (k + 1) rk1 hrk1
    have hcast : cy + ((k + 1 : Nat) : Int) = cy + (k : Int) + 1 := by push_cast; ring
    rw [hek1, mkYearlyResult_portfolio, portfolioAt_succ, stepPortfolio_eq, hcast, hek,
      mkYearlyResult_portfolio]
  · rw [project_exampleC1]
    simp only [Except.toOption, Option.map_some]
    norm_num [exampleC1Results, CalculationEngine.projectAux, CalculationEngine.stepPortfolio,
      CalculationEngine.mkYearlyResult, FinancialProfile.hasWindfallInYear, exampleC1]

/-- C1 witness: the theorem applied to the worked example. -/
theorem project_growth_order_witness :
    CalculationEngine.project exampleC1 2025 = Except.ok exampleC1Results ∧
    (CalculationEngine.project exampleC1 2025).toOption.map
        (fun l => l.map fun r => r.portfolio) = some [3000, 6210] :=
  ⟨rfl, (project_growth_order exampleC1 2025 exampleC1Results rfl).2.2⟩

/-- C2: a successful projection has exactly retirementAge - currentAge
+ 1 entries, with ages currentAge + k and years referenceYear + k at
offset k (hence strictly increasing with no gaps). -/
theorem project_length_ages (p : FinancialProfile) (cy : Int) (rs : List YearlyResult)
    (h : CalculationEngine.project p cy = Except.ok rs) :
    (rs.length : Int) = p.retirementAge - p.currentAge + 1 ∧
    (∀ (k : Nat) (r : YearlyResult), rs.get? k = some r →
      r.age = p.currentAge + (k : Int) ∧ r.year = cy + (k : Int)) := by
  constructor
  · have hlen := project_length p cy rs h
    have hva := (project_valid p cy rs h).1
    rw [hlen]
    omega
  · intro k r hr
    rw [project_entry p cy rs h k r hr]
    exact ⟨rfl, rfl⟩

/-- C2 witness: the worked example projection has two entries. -/
theorem project_length_ages_witness :
    CalculationEngine.project exampleC1 2025 = Except.ok exampleC1Results ∧
    (exampleC1Results.length : Int) = exampleC1.retirementAge - exampleC1.currentAge + 1 :=
  ⟨rfl, (project_length_ages exampleC1 2025 exampleC1Results rfl).1⟩

/-- C3: the windfall test is true iff still pre-retirement at the
target year, the target year is at most windfallEndYear, and the
windfall amount is positive; falsifying any condition falsifies the
test; and each emitted receivedWindfall flag equals the test at that
entry's year. -/
theorem hasWindfall_characterization (p : FinancialProfile) (cy ty : Int)
    (rs : List YearlyResult) (h : CalculationEngine.project p cy = Except.ok rs) :
    (p.hasWindfallInYear cy ty = true ↔
      (p.currentAge + (ty - cy) < p.retirementAge ∧ ty ≤ p.windfallEndYear ∧
        0 < p.windfallAmount)) ∧
    ((¬ p.currentAge + (ty - cy) < p.retirementAge ∨ ¬ ty ≤ p.windfallEndYear ∨
        ¬ 0 < p.windfallAmount) →
      p.hasWindfallInYear cy ty = false) ∧
    (∀ (k : Nat) (r : YearlyResult), rs.get? k = some r →
      r.receivedWindfall = p.hasWindfallInYear cy r.year) := by
  have hiff : p.hasWindfallInYear cy ty = true ↔
      (p.currentAge + (ty - cy) < p.retirementAge ∧ ty ≤ p.windfallEndYear ∧
        0 < p.windfallAmount) := by
    simp [FinancialProfile.hasWindfallInYear, Bool.and_eq_true, decide_eq_true_eq, and_assoc]
  refine ⟨hiff, ?_, ?_⟩
  · intro hneg
    rw [Bool.eq_false_iff]
    intro htrue
    obtain ⟨h1, h2, h3⟩ := hiff.mp htrue
    rcases hneg with hn | hn | hn
    · exact hn h1
    · exact hn h2
    · exact hn h3
  · intro k r hr
    rw [project_entry p cy rs h k r hr]
    rfl

/-- C3 witness: the characterisation applied to the worked example at
target year 2026. -/
theorem hasWindfall_characterization_witness :
    CalculationEngine.project exampleC1 2025 = Except.ok exampleC1Results ∧
    (exampleC1.hasWindfallInYear 2025 2026 = true ↔
      (exampleC1.currentAge + (2026 - 2025) < exampleC1.retirementAge ∧
        (2026 : Int) ≤ exampleC1.windfallEndYear ∧ 0 < exampleC1.windfallAmount)) :=
  ⟨rfl, (hasWindfall_characterization exampleC1 2025 2026 exampleC1Results rfl).1⟩

/-- C4: the three validation rules are checked in order with the first
failure winning, each failing with its own identifier, and any
validation failure propagates so that no result sequence is produced. -/
theorem validate_order_gating (p : FinancialProfile) (cy : Int) :
    (p.retirementAge ≤ p.currentAge →
      p.validate = Except.error ValidationError.InvalidTimeline) ∧
    (p.currentAge < p.retirementAge →
      (p.investmentReturn < 0 ∨ 50 < p.investmentReturn) →
      p.validate = Except.error ValidationError.InvalidReturnRate) ∧
    (p.currentAge < p.retirementAge → 0 ≤ p.investmentReturn → p.investmentReturn ≤ 50 →
      p.windfallAmount < 0 →
      p.validate = Except.error ValidationError.InvalidWindfall) ∧
    (∀ e, p.validate = Except.error e →
      CalculationEngine.project p cy = Except.error e) := by
  refine ⟨?_, ?_, ?_, ?_⟩
  · intro hle
    unfold FinancialProfile.validate
    rw [if_pos hle]
  · intro hlt hbad
    unfold FinancialProfile.validate
    rw [if_neg (not_le.mpr hlt), if_pos hbad]
  · intro hlt h0 h50 hw
    unfold FinancialProfile.validate
    rw [if_neg (not_le.mpr hlt),
      if_neg (fun hc => hc.elim (fun a => absurd a (not_lt.mpr h0))
        (fun a => absurd a (not_lt.mpr h50))),
      if_pos hw]
  · intro e he
    simp [CalculationEngine.project, he]

/-- C4 witness: the timeline rule fires on a profile with
currentAge = 50, retirementAge = 48. -/
theorem validate_order_gating_witness :
    badTimeline.retirementAge ≤ badTimeline.currentAge ∧
    badTimeline.validate = Except.error ValidationError.InvalidTimeline :=
  ⟨by decide, (validate_order_gating badTimeline 2025).1 (by decide)⟩

/-- C5: the entry at offset k carries rent and other expenses inflated
by (1 + expenseInflation/100)^k, their sum as total, and offset 0 is
unadjusted. -/
theorem project_expenses (p : FinancialProfile) (cy : Int) (rs : List YearlyResult)
    (h : CalculationEngine.project p cy = Except.ok rs) :
    ∀ (k : Nat) (r : YearlyResult), rs.get? k = some r →
      r.futureRent = p.rent * (1 + p.expenseInflation / 100) ^ k ∧
      r.futureOther = p.otherExpenses * (1 + p.expenseInflation / 100) ^ k ∧
      r.totalMonthlyExpenses = r.futureRent + r.futureOther ∧
      (k = 0 → r.futureRent = p.rent ∧ r.futureOther = p.otherExpenses) := by
  intro k r hr
  rw [project_entry p cy rs h k r hr]
  refine ⟨rfl, rfl, rfl, ?_⟩
  rintro rfl
  constructor <;> simp [CalculationEngine.mkYearlyResult]

/-- C5 witness: the expense clauses at offset 0 of the worked example. -/
theorem project_expenses_witness :
    CalculationEngine.project exampleC1 2025 = Except.ok exampleC1Results ∧
    exampleC1Results.get? 0 = some exampleC1Entry0 ∧
    (exampleC1Entry0.futureRent =
        exampleC1.rent * (1 + exampleC1.expenseInflation / 100) ^ 0 ∧
      exampleC1Entry0.futureOther =
        exampleC1.otherExpenses * (1 + exampleC1.expenseInflation / 100) ^ 0 ∧
      exampleC1Entry0.totalMonthlyExpenses =
        exampleC1Entry0.futureRent + exampleC1Entry0.futureOther ∧
      (0 = 0 → exampleC1Entry0.futureRent = exampleC1.rent ∧
        exampleC1Entry0.futureOther = exampleC1.otherExpenses)) :=
  ⟨rfl, rfl, project_expenses exampleC1 2025 exampleC1Results rfl 0 exampleC1Entry0 rfl⟩

/-- C6: the safe-withdrawal helper returns round(v × rate / 12) at the
default 4% rate, rounding to the nearest whole unit; in particular it
maps 6210 to round(20.7) = 21. -/
theorem calculateSafeWithdrawal_spec :
    (∀ v : Rat, CalculationEngine.calculateSafeWithdrawal v = round (v * (4 / 100) / 12)) ∧
    CalculationEngine.calculateSafeWithdrawal 6210 = 21 := by
  have hrate : WITHDRAWAL_RATE = 4 / 100 := by norm_num [WITHDRAWAL_RATE]
  constructor
  · intro v
    unfold CalculationEngine.calculateSafeWithdrawal
    rw [hrate]
  · unfold CalculationEngine.calculateSafeWithdrawal
    rw [hrate]
    norm_num [round_eq]

/-- C7 counterexample: the claim asserts formatCurrency(9500) =
"$9.5k", but 9500 is below the 10000 threshold of the k-branch, so the
code renders it through the locale branch instead. -/
theorem formatCurrency_9500_counterexample :
    CalculationEngine.formatCurrency 9500 ≠ "$9.5k" := by
  have h : CalculationEngine.formatCurrency 9500 = "$9,500" := by
    unfold CalculationEngine.formatCurrency
    rw [if_neg (by norm_num), if_neg (by norm_num), if_neg (by norm_num)]
    have hr : round (9500 : Rat) = 9500 := by norm_num [round_eq]
    rw [hr]
    decide
  rw [h]
  decide

/-- C7 amended: the threshold cascade is as claimed (≥ 1e9 gives B
with two decimals, ≥ 1e6 gives M with two decimals, ≥ 1e4 gives k with
one decimal, otherwise the rounded amount with thousands separators),
formatCurrency(12345678) = "$12.35M" and formatCurrency(950) = "$950";
but formatCurrency(9500) = "$9,500", since 9500 is below the 1e4
threshold of the k-branch. -/
theorem formatCurrency_amended :
    (∀ v : Rat, 1000000000 ≤ v →
      CalculationEngine.formatCurrency v =
        "$" ++ CalculationEngine.ratToFixed 2 (v / 1000000000) ++ "B") ∧
    (∀ v : Rat, 1000000 ≤ v → v < 1000000000 →
      CalculationEngine.formatCurrency v =
        "$" ++ CalculationEngine.ratToFixed 2 (v / 1000000) ++ "M") ∧
    (∀ v : Rat, 10000 ≤ v → v < 1000000 →
      CalculationEngine.formatCurrency v =
        "$" ++ CalculationEngine.ratToFixed 1 (v / 1000) ++ "k") ∧
    (∀ v : Rat, v < 10000 →
      CalculationEngine.formatCurrency v =
        "$" ++ CalculationEngine.intLocaleString (round v)) ∧
    CalculationEngine.formatCurrency 12345678 = "$12.35M" ∧
    CalculationEngine.formatCurrency 9500 = "$9,500" ∧
    CalculationEngine.formatCurrency 950 = "$950" := by
  refine ⟨?_, ?_, ?_, ?_, ?_, ?_, ?_⟩
  · intro v hv
    unfold CalculationEngine.formatCurrency
    rw [if_pos hv]
  · intro v hv hv9
    unfold CalculationEngine.formatCurrency
    rw [if_neg (not_le.mpr hv9), if_pos hv]
  · intro v hv hv6
    unfold CalculationEngine.formatCurrency
    rw [if_neg (not_le.mpr (lt_of_lt_of_le hv6 (by norm_num))),
      if_neg (not_le.mpr hv6), if_pos hv]
  · intro v hv
    unfold CalculationEngine.formatCurrency
    rw [if_neg (not_le.mpr (lt_of_lt_of_le hv (by norm_num))),
      if_neg (not_le.mpr (lt_of_lt_of_le hv (by norm_num))),
      if_neg (not_le.mpr hv)]
  · unfold CalculationEngine.formatCurrency
    rw [if_neg (by norm_num), if_pos (by norm_num)]
    simp only [CalculationEngine.ratToFixed]
    have hr : round ((12345678 : Rat) / 1000000 * (10 : Rat) ^ 2) = 1235 := by
      norm_num [round_eq]
    rw [hr]
    decide
  · unfold CalculationEngine.formatCurrency
    rw [if_neg (by norm_num), if_neg (by norm_num), if_neg (by norm_num)]
    have hr : round (9500 : Rat) = 9500 := by norm_num [round_eq]
    rw [hr]
    decide
  · unfold CalculationEngine.formatCurrency
    rw [if_neg (by norm_num), if_neg (by norm_num), if_neg (by norm_num)]
    have hr : round (950 : Rat) = 950 := by norm_num [round_eq]
    rw [hr]
    decide

/-- C7 amended witness: the B-branch applied at 2e9. -/
theorem formatCurrency_amended_witness :
    (1000000000 : Rat) ≤ 2000000000 ∧
    CalculationEngine.formatCurrency 2000000000 =
      "$" ++ CalculationEngine.ratToFixed 2 ((2000000000 : Rat) / 1000000000) ++ "B" :=
  ⟨by norm_num, formatCurrency_amended.1 2000000000 (by norm_num)⟩

/-- C8: with zero return, zero contributions and zero windfall, every
emitted portfolio equals currentSavings. -/
theorem project_constant_portfolio (p : FinancialProfile) (cy : Int)
    (rs : List YearlyResult) (h : CalculationEngine.project p cy = Except.ok rs)
    (hr : p.investmentReturn = 0) (hm : p.monthlyInvestment = 0)
    (hw : p.windfallAmount = 0) :
    ∀ (k : Nat) (r : YearlyResult), rs.get? k = some r →
      r.portfolio = p.currentSavings := by
  have hstep : ∀ (off : Nat) (v : Rat), stepPortfolio p cy off v = v := by
    intro off v
    rw [stepPortfolio_eq, hr, hm, hw]
    split_ifs <;> norm_num
  have hconst : ∀ k, portfolioAt p cy k = p.currentSavings := by
    intro k
    induction k with
    | zero => rw [portfolioAt_zero, hstep]
    | succ k ih => rw [portfolioAt_succ, hstep, ih]
  intro k r hrk
  rw [project_entry p cy rs h k r hrk, mkYearlyResult_portfolio, hconst]

/-- C8 witness: the flat profile keeps its 500 of savings at offset 1. -/
theorem project_constant_portfolio_witness :
    CalculationEngine.project flatProfile 2025 = Except.ok flatResults ∧
    flatProfile.investmentReturn = 0 ∧ flatProfile.monthlyInvestment = 0 ∧
    flatProfile.windfallAmount = 0 ∧
    flatResults.get? 1 = some flatEntry1 ∧
    flatEntry1.portfolio = flatProfile.currentSavings :=
  ⟨rfl, rfl, rfl, rfl, rfl,
    project_constant_portfolio flatProfile 2025 flatResults rfl rfl rfl rfl 1 flatEntry1 rfl⟩

theorem runLoop_profile (cy : Int) :
    ∀ (fuel yearOffset : Nat) (s : LoopState),
      (runLoop cy yearOffset fuel s).profile = s.profile := by
  intro fuel
  induction fuel with
  | zero => intro yearOffset s; rfl
  | succ n ih => intro yearOffset s; simp [runLoop, ih, loopStep]

theorem runLoop_results (cy : Int) :
    ∀ (fuel yearOffset : Nat) (s : LoopState),
      (runLoop cy yearOffset fuel s).results =
        s.results ++ projectAux s.profile cy yearOffset s.portfolio fuel := by
  intro fuel
  induction fuel with
  | zero => intro yearOffset s; simp [runLoop, projectAux]
  | succ n ih =>
    intro yearOffset s
    simp [runLoop, ih, loopStep, projectAux, List.append_assoc]

/-- C9: running the projection loop never changes the profile
component of the loop state — every Profile field is left unchanged —
and the only state threaded across iterations, the running portfolio
and the results array, reproduces exactly the sequence project emits. -/
theorem project_frame (p : FinancialProfile) (cy : Int) :
    (CalculationEngine.runLoop cy 0 ((p.retirementAge - p.currentAge).toNat + 1)
        ⟨p, p.currentSavings, []⟩).profile = p ∧
    (p.validate = Except.ok () →
      Except.ok (CalculationEngine.runLoop cy 0
          ((p.retirementAge - p.currentAge).toNat + 1)
          ⟨p, p.currentSavings, []⟩).results = CalculationEngine.project p cy) := by
  constructor
  · rw [runLoop_profile]
  · intro hv
    rw [runLoop_results]
    simp [CalculationEngine.project, hv]

/-- C9 witness: the frame property on the default configuration. -/
theorem project_frame_witness :
    DEFAULT_PROFILE.validate = Except.ok () ∧
    Except.ok (CalculationEngine.runLoop 2025 0
        ((DEFAULT_PROFILE.retirementAge - DEFAULT_PROFILE.currentAge).toNat + 1)
        ⟨DEFAULT_PROFILE, DEFAULT_PROFILE.currentSavings, []⟩).results =
      CalculationEngine.project DEFAULT_PROFILE 2025 :=
  ⟨rfl, (project_frame DEFAULT_PROFILE 2025).2 rfl⟩

/-- C10: with non-negative savings and contributions (returns and
windfall being non-negative by validation), every emitted portfolio is
at least currentSavings and the emitted portfolios are monotone
non-decreasing in the offset. -/
theorem project_monotone (p : FinancialProfile) (cy : Int) (rs : List YearlyResult)
    (h : CalculationEngine.project p cy = Except.ok rs)
    (hcs : 0 ≤ p.currentSavings) (hm : 0 ≤ p.monthlyInvestment) :
    (∀ (k : Nat) (r : YearlyResult), rs.get? k = some r →
      p.currentSavings ≤ r.portfolio) ∧
    (∀ (j k : Nat) (rj rk : YearlyResult), j ≤ k →
      rs.get? j = some rj → rs.get? k = some rk →
      rj.portfolio ≤ rk.portfolio) := by
  obtain ⟨-, hr0, hr50, hw0⟩ := project_valid p cy rs h
  have hstep : ∀ (off : Nat) (v : Rat), 0 ≤ v → v ≤ stepPortfolio p cy off v := by
    intro off v hv
    rw [stepPortfolio_eq]
    have hgrow : v ≤ v * (1 + p.investmentReturn / 100) :=
      le_mul_of_one_le_right hv (by linarith [div_nonneg hr0 (by norm_num : (0:Rat) ≤ 100)])
    have hmi : (0 : Rat) ≤ p.monthlyInvestment * 12 := mul_nonneg hm (by norm_num)
    split_ifs <;> linarith
  have hge : ∀ k, p.currentSavings ≤ portfolioAt p cy k := by
    intro k
    induction k with
    | zero => rw [portfolioAt_zero]; exact hstep 0 _ hcs
    | succ k ih =>
      rw [portfolioAt_succ]
      exact le_trans ih (hstep (k + 1) _ (le_trans hcs ih))
  have hmono1 : ∀ k, portfolioAt p cy k ≤ portfolioAt p cy (k + 1) := by
    intro k
    rw [portfolioAt_succ]
    exact hstep (k + 1) _ (le_trans hcs (hge k))
  have hmono : ∀ j k, j ≤ k → portfolioAt p cy j ≤ portfolioAt p cy k := by
    intro j k hjk
    obtain ⟨d, rfl⟩ := Nat.exists_eq_add_of_le hjk
    clear hjk
    induction d with
    | zero => exact le_refl _
    | succ d ih => exact le_trans ih (hmono1 (j + d))
  constructor
  · intro k r hrk
    rw [project_entry p cy rs h k r hrk, mkYearlyResult_portfolio]
    exact hge k
  · intro j k rj rk hjk hj hk
    rw [project_entry p cy rs h j rj hj, project_entry p cy rs h k rk hk,
      mkYearlyResult_portfolio, mkYearlyResult_portfolio]
    exact hmono j k hjk

/-- C10 witness: the lower bound at offset 0 of the worked example. -/
theorem project_monotone_witness :
    CalculationEngine.project exampleC1 2025 = Except.ok exampleC1Results ∧
    (0 : Rat) ≤ exampleC1.currentSavings ∧ (0 : Rat) ≤ exampleC1.monthlyInvestment ∧
    exampleC1Results.get? 0 = some exampleC1Entry0 ∧
    exampleC1.currentSavings ≤ exampleC1Entry0.portfolio :=
  ⟨rfl, by decide, by decide, rfl,
    (project_monotone exampleC1 2025 exampleC1Results rfl (by decide) (by decide)).1
      0 exampleC1Entry0 rfl⟩
